import Mathlib

/-!
Verification of the MMKV JSI binding (src/cpp/MmkvHostObject.cpp).

The file shallowly embeds the binding layer: the JS values crossing the
boundary, the host-object property resolution (MmkvHostObject::get), the
host functions it hands out, and the constructor's failure handling.

The MMKV storage engine itself is an external library consumed through a
fixed API (mmkvWithID, set, getBool, getDouble, getString, getBytes,
containsKey, removeValueForKey, allKeys, reKey, trim, actualSize,
clearAll, clearMemoryCache); it is modelled here from the specification
as a typed key-value store, and every handler additionally records the
trace of engine operations it invokes.
-/

/-- A JSI object as far as the binding inspects it: either an ArrayBuffer
carrying bytes, a JS array of strings (as built by getAllKeys), or some
other object. -/
inductive JSObject where
  | arrayBuffer (data : List Nat)
  | jsArray (keys : List String)
  | plain
deriving DecidableEq

/-- A jsi::Value as far as the binding inspects it (isBool / isNumber /
isString / isObject / isUndefined dispatch).  JS numbers are doubles; the
claims checked here only involve integer-representable numbers, so the
payload is an Int. -/
inductive JSValue where
  | undefined
  | null
  | boolean (b : Bool)
  | number (n : Int)
  | string (s : String)
  | object (o : JSObject)
deriving DecidableEq

/-- A value as held by the engine: MMKV stores bools, doubles, strings and
byte buffers. -/
inductive StoredValue where
  | boolValue (b : Bool)
  | doubleValue (x : Int)
  | stringValue (s : String)
  | bytesValue (data : List Nat)
deriving DecidableEq

/-- One call made by the binding into the external engine's API. -/
inductive EngineOp where
  | set (key : String) (v : StoredValue)
  | getBool (key : String)
  | getDouble (key : String)
  | getString (key : String)
  | getBytes (key : String)
  | containsKey (key : String)
  | removeValueForKey (key : String)
  | allKeys
  | clearAll
  | reKey (key : String)
  | trim
  | clearMemoryCache
  | actualSize
deriving DecidableEq

/-- Modelled from the spec: the external MMKV engine is "an existing native
key-value storage engine"; its observable state at the binding's API is the
map from keys to stored values, plus the byte size reported by actualSize.
The map is kept as an association list so states stay decidably comparable. -/
structure EngineState where
  entries : List (String × StoredValue)
  actualSize : Nat
deriving DecidableEq

/-- Association-list lookup for the engine's key-value map. -/
def findEntry : List (String × StoredValue) → String → Option StoredValue
  | [], _ => none
  | (k, v) :: rest, key => if k = key then some v else findEntry rest key

/-- Association-list removal for the engine's key-value map. -/
def removeEntry : List (String × StoredValue) → String → List (String × StoredValue)
  | [], _ => []
  | (k, v) :: rest, key =>
      if k = key then removeEntry rest key else (k, v) :: removeEntry rest key

/-- Modelled from the spec: engine `set` stores the value under the key,
replacing any previous value. -/
def EngineState.engineSet (st : EngineState) (key : String) (v : StoredValue) : EngineState :=
  { st with entries := (key, v) :: removeEntry st.entries key }

/-- Modelled from the spec: engine `removeValueForKey` removes the key's
value and leaves every other key alone. -/
def EngineState.engineRemove (st : EngineState) (key : String) : EngineState :=
  { st with entries := removeEntry st.entries key }

/-- Modelled from the spec: engine `clearAll` clears all keys. -/
def EngineState.engineClearAll (st : EngineState) : EngineState :=
  { st with entries := [] }

/-- Modelled from the spec: engine `getBool(key, default, hasValue)` returns
the stored bool and sets hasValue when the key holds a bool, and otherwise
returns the default with hasValue false. -/
def EngineState.engineGetBool (st : EngineState) (key : String) (dflt : Bool) : Bool × Bool :=
  match findEntry st.entries key with
  | some (StoredValue.boolValue b) => (b, true)
  | _ => (dflt, false)

/-- Modelled from the spec: engine `getDouble(key, default, hasValue)`. -/
def EngineState.engineGetDouble (st : EngineState) (key : String) (dflt : Int) : Int × Bool :=
  match findEntry st.entries key with
  | some (StoredValue.doubleValue x) => (x, true)
  | _ => (dflt, false)

/-- Modelled from the spec: engine `getString(key, result)` fills the result
and returns true exactly when the key holds a string. -/
def EngineState.engineGetString (st : EngineState) (key : String) : Option String :=
  match findEntry st.entries key with
  | some (StoredValue.stringValue s) => some s
  | _ => none

/-- Modelled from the spec: engine `getBytes(key, buffer)` fills the buffer
and returns true exactly when the key holds bytes. -/
def EngineState.engineGetBytes (st : EngineState) (key : String) : Option (List Nat) :=
  match findEntry st.entries key with
  | some (StoredValue.bytesValue data) => some data
  | _ => none

/-- Modelled from the spec: engine `containsKey`. -/
def EngineState.engineContainsKey (st : EngineState) (key : String) : Bool :=
  (findEntry st.entries key).isSome

/-- Modelled from the spec: engine `allKeys` lists the stored keys. -/
def EngineState.engineAllKeys (st : EngineState) : List String :=
  st.entries.map Prod.fst

/-- Modelled from the spec: engine `reKey` re-encrypts the file in place;
the stored key-value content is preserved. -/
def EngineState.engineReKey (st : EngineState) (_key : String) : EngineState :=
  st

/-- Modelled from the spec: engine `trim` compacts the backing file; the
stored key-value content is preserved.  The file-size bookkeeping is not
related to the map by the spec, so actualSize is left untouched. -/
def EngineState.engineTrim (st : EngineState) : EngineState :=
  st

/-- Modelled from the spec: engine `clearMemoryCache` drops the in-memory
cache; the stored key-value content is preserved. -/
def EngineState.engineClearMemoryCache (st : EngineState) : EngineState :=
  st

instance : DecidableEq (Except String JSValue) := fun a b =>
  match a, b with
  | Except.ok x, Except.ok y =>
      if h : x = y then Decidable.isTrue (h ▸ rfl)
      else Decidable.isFalse (fun hc => h (Except.ok.inj hc))
  | Except.error x, Except.error y =>
      if h : x = y then Decidable.isTrue (h ▸ rfl)
      else Decidable.isFalse (fun hc => h (Except.error.inj hc))
  | Except.ok _, Except.error _ => Decidable.isFalse (fun hc => Except.noConfusion hc)
  | Except.error _, Except.ok _ => Decidable.isFalse (fun hc => Except.noConfusion hc)

/-- Outcome of invoking one of the binding's host functions: the value it
returns to script (or the JSError it throws), the engine state afterwards,
and the engine calls it made, in order. -/
structure HostCallResult where
  result : Except String JSValue
  state : EngineState
  ops : List EngineOp
deriving DecidableEq

/-- True when the host call raised a script-level exception. -/
def throwsError (r : HostCallResult) : Bool :=
  match r.result with
  | Except.error _ => true
  | Except.ok _ => false

namespace MmkvHostObject

/-- The lambda behind MMKV.set (MmkvHostObject.cpp lines 97-145): requires
exactly two arguments with a string key, then dispatches on the value's
type (bool / number / string / ArrayBuffer) and forwards to the engine;
any other shape throws before any engine call. -/
def set (st : EngineState) (arguments : List JSValue) : HostCallResult :=
  match arguments with
  | [JSValue.string keyName, value] =>
    match value with
    | JSValue.boolean b =>
        { result := Except.ok JSValue.undefined,
          state := st.engineSet keyName (StoredValue.boolValue b),
          ops := [EngineOp.set keyName (StoredValue.boolValue b)] }
    | JSValue.number x =>
        { result := Except.ok JSValue.undefined,
          state := st.engineSet keyName (StoredValue.doubleValue x),
          ops := [EngineOp.set keyName (StoredValue.doubleValue x)] }
    | JSValue.string s =>
        { result := Except.ok JSValue.undefined,
          state := st.engineSet keyName (StoredValue.stringValue s),
          ops := [EngineOp.set keyName (StoredValue.stringValue s)] }
    | JSValue.object (JSObject.arrayBuffer data) =>
        { result := Except.ok JSValue.undefined,
          state := st.engineSet keyName (StoredValue.bytesValue data),
          ops := [EngineOp.set keyName (StoredValue.bytesValue data)] }
    | JSValue.object (JSObject.jsArray _) =>
        { result := Except.error
            "MMKV::set: \x27value\x27 argument is an object, but not of type ArrayBuffer!",
          state := st, ops := [] }
    | JSValue.object JSObject.plain =>
        { result := Except.error
            "MMKV::set: \x27value\x27 argument is an object, but not of type ArrayBuffer!",
          state := st, ops := [] }
    | _ =>
        { result := Except.error
            "MMKV::set: \x27value\x27 argument is not of type bool, number, string or buffer!",
          state := st, ops := [] }
  | _ =>
      { result := Except.error
          "MMKV::set: First argument (\x27key\x27) has to be of type string!",
        state := st, ops := [] }

/-- The lambda behind MMKV.getBoolean (lines 147-168). -/
def getBoolean (st : EngineState) (arguments : List JSValue) : HostCallResult :=
  match arguments with
  | [JSValue.string keyName] =>
    let value := st.engineGetBool keyName false
    if value.2 = false then
      { result := Except.ok JSValue.undefined, state := st, ops := [EngineOp.getBool keyName] }
    else
      { result := Except.ok (JSValue.boolean value.1), state := st,
        ops := [EngineOp.getBool keyName] }
  | _ =>
      { result := Except.error "First argument (\x27key\x27) has to be of type string!",
        state := st, ops := [] }

/-- The lambda behind MMKV.getNumber (lines 170-191). -/
def getNumber (st : EngineState) (arguments : List JSValue) : HostCallResult :=
  match arguments with
  | [JSValue.string keyName] =>
    let value := st.engineGetDouble keyName 0
    if value.2 = false then
      { result := Except.ok JSValue.undefined, state := st, ops := [EngineOp.getDouble keyName] }
    else
      { result := Except.ok (JSValue.number value.1), state := st,
        ops := [EngineOp.getDouble keyName] }
  | _ =>
      { result := Except.error "First argument (\x27key\x27) has to be of type string!",
        state := st, ops := [] }

/-- The lambda behind MMKV.getString (lines 193-214). -/
def getString (st : EngineState) (arguments : List JSValue) : HostCallResult :=
  match arguments with
  | [JSValue.string keyName] =>
    match st.engineGetString keyName with
    | none =>
        { result := Except.ok JSValue.undefined, state := st, ops := [EngineOp.getString keyName] }
    | some s =>
        { result := Except.ok (JSValue.string s), state := st, ops := [EngineOp.getString keyName] }
  | _ =>
      { result := Except.error "First argument (\x27key\x27) has to be of type string!",
        state := st, ops := [] }

/-- The lambda behind MMKV.getBuffer (lines 216-238). -/
def getBuffer (st : EngineState) (arguments : List JSValue) : HostCallResult :=
  match arguments with
  | [JSValue.string keyName] =>
    match st.engineGetBytes keyName with
    | none =>
        { result := Except.ok JSValue.undefined, state := st, ops := [EngineOp.getBytes keyName] }
    | some data =>
        { result := Except.ok (JSValue.object (JSObject.arrayBuffer data)), state := st,
          ops := [EngineOp.getBytes keyName] }
  | _ =>
      { result := Except.error "First argument (\x27key\x27) has to be of type string!",
        state := st, ops := [] }

/-- The lambda behind MMKV.contains (lines 240-256). -/
def contains (st : EngineState) (arguments : List JSValue) : HostCallResult :=
  match arguments with
  | [JSValue.string keyName] =>
      { result := Except.ok (JSValue.boolean (st.engineContainsKey keyName)), state := st,
        ops := [EngineOp.containsKey keyName] }
  | _ =>
      { result := Except.error "First argument (\x27key\x27) has to be of type string!",
        state := st, ops := [] }

/-- The lambda behind MMKV.delete (lines 258-274). -/
def deleteKey (st : EngineState) (arguments : List JSValue) : HostCallResult :=
  match arguments with
  | [JSValue.string keyName] =>
      { result := Except.ok JSValue.undefined, state := st.engineRemove keyName,
        ops := [EngineOp.removeValueForKey keyName] }
  | _ =>
      { result := Except.error "First argument (\x27key\x27) has to be of type string!",
        state := st, ops := [] }

/-- The lambda behind MMKV.getAllKeys (lines 276-289): no argument check. -/
def getAllKeys (st : EngineState) (_arguments : List JSValue) : HostCallResult :=
  { result := Except.ok (JSValue.object (JSObject.jsArray st.engineAllKeys)), state := st,
    ops := [EngineOp.allKeys] }

/-- The lambda behind the property named clearAll (lines 291-300): no
argument check; clears all keys via the engine. -/
def clearAll (st : EngineState) (_arguments : List JSValue) : HostCallResult :=
  { result := Except.ok JSValue.undefined, state := st.engineClearAll,
    ops := [EngineOp.clearAll] }

/-- The lambda behind MMKV.recrypt (lines 302-331): exactly one argument is
required; undefined resets encryption, a string re-keys, anything else
throws. -/
def recrypt (st : EngineState) (arguments : List JSValue) : HostCallResult :=
  if arguments.length ≠ 1 then
    { result := Except.error
        ("Expected 1 argument (encryptionKey), but received " ++
          toString arguments.length ++ "!"),
      state := st, ops := [] }
  else
    match arguments with
    | [JSValue.undefined] =>
        { result := Except.ok JSValue.undefined, state := st.engineReKey "",
          ops := [EngineOp.reKey ""] }
    | [JSValue.string encryptionKey] =>
        { result := Except.ok JSValue.undefined, state := st.engineReKey encryptionKey,
          ops := [EngineOp.reKey encryptionKey] }
    | _ =>
        { result := Except.error
            "First argument (\x27encryptionKey\x27) has to be of type string (or undefined)!",
          state := st, ops := [] }

/-- The lambda behind MMKV.trim (lines 333-344): no argument check; calls
the engine's clearMemoryCache and then trim. -/
def trim (st : EngineState) (_arguments : List JSValue) : HostCallResult :=
  { result := Except.ok JSValue.undefined,
    state := st.engineClearMemoryCache.engineTrim,
    ops := [EngineOp.clearMemoryCache, EngineOp.trim] }

end MmkvHostObject

/-- Identifies which host function a property access resolved to. -/
inductive HostFuncId where
  | set
  | getBoolean
  | getNumber
  | getString
  | getBuffer
  | contains
  | deleteKey
  | getAllKeys
  | clearAll
  | recrypt
  | trim
deriving DecidableEq

/-- What MmkvHostObject::get hands back for a property name: a host
function (with its jsi function name), a plain number (the size branch,
which calls the engine's actualSize at property-access time), or
undefined (the fallthrough at line 352). -/
inductive PropertyValue where
  | hostFunction (f : HostFuncId) (name : String)
  | numberValue (n : Int)
  | undefined
deriving DecidableEq

/-- static_cast of a size_t value to int as on all mainstream ABIs
(two's-complement 32-bit truncation, the behaviour C++20 defines). -/
def toInt32 (n : Nat) : Int :=
  ((n : Int) + 2 ^ 31) % 2 ^ 32 - 2 ^ 31

namespace MmkvHostObject

/-- MmkvHostObject::get (lines 93-353): the chain of propName comparisons,
in source order, ending in the undefined fallthrough. -/
def get (st : EngineState) (propName : String) : PropertyValue :=
  let funcName := "MMKV." ++ propName
  if propName = "set" then PropertyValue.hostFunction HostFuncId.set funcName
  else if propName = "getBoolean" then PropertyValue.hostFunction HostFuncId.getBoolean funcName
  else if propName = "getNumber" then PropertyValue.hostFunction HostFuncId.getNumber funcName
  else if propName = "getString" then PropertyValue.hostFunction HostFuncId.getString funcName
  else if propName = "getBuffer" then PropertyValue.hostFunction HostFuncId.getBuffer funcName
  else if propName = "contains" then PropertyValue.hostFunction HostFuncId.contains funcName
  else if propName = "delete" then PropertyValue.hostFunction HostFuncId.deleteKey funcName
  else if propName = "getAllKeys" then PropertyValue.hostFunction HostFuncId.getAllKeys funcName
  else if propName = "clearAll" then PropertyValue.hostFunction HostFuncId.clearAll funcName
  else if propName = "recrypt" then PropertyValue.hostFunction HostFuncId.recrypt funcName
  else if propName = "trim" then PropertyValue.hostFunction HostFuncId.trim funcName
  else if propName = "size" then PropertyValue.numberValue (toInt32 st.actualSize)
  else PropertyValue.undefined

/-- Invoking the host function a property resolved to. -/
def call (f : HostFuncId) (st : EngineState) (arguments : List JSValue) : HostCallResult :=
  match f with
  | HostFuncId.set => set st arguments
  | HostFuncId.getBoolean => getBoolean st arguments
  | HostFuncId.getNumber => getNumber st arguments
  | HostFuncId.getString => getString st arguments
  | HostFuncId.getBuffer => getBuffer st arguments
  | HostFuncId.contains => contains st arguments
  | HostFuncId.deleteKey => deleteKey st arguments
  | HostFuncId.getAllKeys => getAllKeys st arguments
  | HostFuncId.clearAll => clearAll st arguments
  | HostFuncId.recrypt => recrypt st arguments
  | HostFuncId.trim => trim st arguments

/-- MmkvHostObject::getPropertyNames (lines 60-76), in source order. -/
def getPropertyNames : List String :=
  ["set", "getBoolean", "getBuffer", "getString", "getNumber", "contains",
   "delete", "getAllKeys", "deleteAll", "recrypt", "trim", "size"]

end MmkvHostObject

/-- The constructor's configuration, as read by MmkvHostObject's
constructor: instance id, optional path, optional encryption key. -/
structure MMKVConfig where
  id : String
  path : Option String
  encryptionKey : Option String

namespace MmkvHostObject

/-- The constructor's failure handling (MmkvHostObject.cpp lines 18-49)
after the external MMKV::mmkvWithID call, whose outcome is the `created`
parameter (none models a null instance).  encryptionKey.size() counts
bytes, hence utf8ByteSize. -/
def construct (config : MMKVConfig) (created : Option EngineState) :
    Except String EngineState :=
  let encryptionKey := config.encryptionKey.getD ""
  match created with
  | some inst => Except.ok inst
  | none =>
      if config.id = "" then
        Except.error "Failed to create MMKV instance! `id` cannot be empty!"
      else if 16 < encryptionKey.utf8ByteSize then
        Except.error
          "Failed to create MMKV instance! `encryptionKey` cannot be longer than 16 bytes!"
      else
        Except.error "Failed to create MMKV instance!"

end MmkvHostObject

/-- Argument shapes the set handler accepts: two arguments, a string key
and a bool / number / string / ArrayBuffer value. -/
def setValidArgs : List JSValue → Bool
  | [JSValue.string _, JSValue.boolean _] => true
  | [JSValue.string _, JSValue.number _] => true
  | [JSValue.string _, JSValue.string _] => true
  | [JSValue.string _, JSValue.object (JSObject.arrayBuffer _)] => true
  | _ => false

/-- An empty engine state for concrete evaluations. -/
def st0 : EngineState := { entries := [], actualSize := 0 }

/-- A small populated engine state for concrete evaluations. -/
def st1 : EngineState :=
  { entries := [("a", StoredValue.boolValue true), ("b", StoredValue.stringValue "x")],
    actualSize := 64 }

/-- Removing a key from the engine map leaves every lookup of a different
key unchanged, and the removed key absent. -/
theorem findEntry_removeEntry (l : List (String × StoredValue)) (key k : String) :
    findEntry (removeEntry l key) k = if k = key then none else findEntry l k := by
  induction l with
  | nil => simp [removeEntry, findEntry]
  | cons hd tl ih =>
      obtain ⟨k1, v1⟩ := hd
      by_cases h1 : k1 = key <;> by_cases h2 : k = key <;> by_cases h3 : k1 = k <;>
        simp_all [removeEntry, findEntry]

/-- Claim C1: accessing the property named deleteAll on the host object is
claimed to resolve to the clear-all function; in the code, get() has no
deleteAll branch (only clearAll), so the access falls through to
undefined, even though getPropertyNames advertises deleteAll (and does not
advertise clearAll). -/
theorem c1_deleteAll_property_is_undefined (st : EngineState) :
    MmkvHostObject.get st "deleteAll" = PropertyValue.undefined ∧
    "deleteAll" ∈ MmkvHostObject.getPropertyNames ∧
    MmkvHostObject.get st "clearAll" =
      PropertyValue.hostFunction HostFuncId.clearAll "MMKV.clearAll" ∧
    "clearAll" ∉ MmkvHostObject.getPropertyNames :=
  ⟨rfl, by decide, rfl, by decide⟩

/-- Claim C2, counterexample: invoking recrypt with zero arguments is not
accepted; it throws a script-level argument-count error. -/
theorem c2_recrypt_zero_args_throws :
    MmkvHostObject.recrypt st0 [] =
      { result := Except.error "Expected 1 argument (encryptionKey), but received 0!",
        state := st0, ops := [] } := by
  rfl

/-- Claim C2, amended: recrypt succeeds exactly when called with one
argument that is a string or undefined; zero arguments (and any other
shape) raise a script-level exception. -/
theorem c2_recrypt_accepts_one_string_or_undefined (st : EngineState)
    (args : List JSValue) :
    throwsError (MmkvHostObject.recrypt st args) = false ↔
      args = [JSValue.undefined] ∨ ∃ s, args = [JSValue.string s] := by
  rcases args with _ | ⟨a, rest⟩
  · simp [MmkvHostObject.recrypt, throwsError]
  rcases rest with _ | ⟨b, rest⟩
  · cases a <;> simp [MmkvHostObject.recrypt, throwsError]
  · cases a <;> simp [MmkvHostObject.recrypt, throwsError]

/-- Claim C3: setting a boolean under a key and then reading the key with
getBoolean on the resulting state yields exactly that boolean. -/
theorem c3_set_bool_getBoolean_roundtrip (st : EngineState) (k : String) (b : Bool) :
    (MmkvHostObject.set st [JSValue.string k, JSValue.boolean b]).result =
      Except.ok JSValue.undefined ∧
    (MmkvHostObject.getBoolean
        (MmkvHostObject.set st [JSValue.string k, JSValue.boolean b]).state
        [JSValue.string k]).result = Except.ok (JSValue.boolean b) := by
  refine ⟨rfl, ?_⟩
  simp [MmkvHostObject.set, MmkvHostObject.getBoolean, EngineState.engineSet,
    EngineState.engineGetBool, findEntry]

/-- A host call throws exactly when its result is an error. -/
theorem throwsError_iff (r : HostCallResult) :
    throwsError r = true ↔ ∃ e, r.result = Except.error e := by
  unfold throwsError
  cases h : r.result <;> simp [h]

/-- Full behaviour of the set handler: on a valid argument shape it returns
undefined; on any other shape it throws, leaves the engine state unchanged
and makes no engine call. -/
theorem set_spec (st : EngineState) (args : List JSValue) :
    (setValidArgs args = true ∧
      (MmkvHostObject.set st args).result = Except.ok JSValue.undefined) ∨
    (setValidArgs args = false ∧ throwsError (MmkvHostObject.set st args) = true ∧
      (MmkvHostObject.set st args).state = st ∧ (MmkvHostObject.set st args).ops = []) := by
  rcases args with _ | ⟨a, _ | ⟨b, _ | ⟨c, rest⟩⟩⟩
  · right; exact ⟨rfl, rfl, rfl, rfl⟩
  · cases a <;> (right; exact ⟨rfl, rfl, rfl, rfl⟩)
  · cases a <;> try (right; exact ⟨rfl, rfl, rfl, rfl⟩)
    cases b <;> try (right; exact ⟨rfl, rfl, rfl, rfl⟩)
    case boolean _ => left; exact ⟨rfl, rfl⟩
    case number _ => left; exact ⟨rfl, rfl⟩
    case string _ => left; exact ⟨rfl, rfl⟩
    case object o =>
      cases o
      case arrayBuffer _ => left; exact ⟨rfl, rfl⟩
      case jsArray _ => right; exact ⟨rfl, rfl, rfl, rfl⟩
      case plain => right; exact ⟨rfl, rfl, rfl, rfl⟩
  · cases a <;> cases b <;>
      first
        | (right; exact ⟨rfl, rfl, rfl, rfl⟩)
        | (rename_i o; cases o <;> (right; exact ⟨rfl, rfl, rfl, rfl⟩))

/-- Claim C4: whenever the external mmkvWithID call yields a null instance,
the constructor throws; with an empty id it reports that the id cannot be
empty, else with an encryption key longer than 16 bytes it reports that
the key cannot be longer than 16 bytes, and otherwise it reports a generic
construction failure. -/
theorem c4_construct_null_instance_throws (config : MMKVConfig) :
    MmkvHostObject.construct config none =
      Except.error
        (if config.id = "" then "Failed to create MMKV instance! `id` cannot be empty!"
         else if 16 < (config.encryptionKey.getD "").utf8ByteSize then
           "Failed to create MMKV instance! `encryptionKey` cannot be longer than 16 bytes!"
         else "Failed to create MMKV instance!") := by
  unfold MmkvHostObject.construct
  by_cases h1 : config.id = "" <;>
    by_cases h2 : 16 < (config.encryptionKey.getD "").utf8ByteSize <;>
      simp [h1, h2]

/-- Claim C5: set throws exactly on a bad argument shape (wrong count,
non-string key, or a value that is not bool, number, string or
ArrayBuffer), and on every valid shape it returns undefined without
throwing. -/
theorem c5_set_argument_validation (st : EngineState) (args : List JSValue) :
    (throwsError (MmkvHostObject.set st args) = true ↔ setValidArgs args = false) ∧
    ((MmkvHostObject.set st args).result = Except.ok JSValue.undefined ↔
      setValidArgs args = true) := by
  rcases set_spec st args with ⟨hv, hok⟩ | ⟨hv, herr, _, _⟩
  · have ht : throwsError (MmkvHostObject.set st args) = false := by
      unfold throwsError
      rw [hok]
    simp [ht, hv, hok]
  · obtain ⟨e, he⟩ := (throwsError_iff _).mp herr
    simp [hv, herr, he]

/-- Claim C6, counterexample: the trim handler does not invoke only the
engine's trim; it invokes clearMemoryCache first. -/
theorem c6_trim_also_invokes_clearMemoryCache :
    (MmkvHostObject.trim st0 []).ops = [EngineOp.clearMemoryCache, EngineOp.trim] ∧
    (MmkvHostObject.trim st0 []).ops ≠ [EngineOp.trim] := by
  decide

/-- Claim C6, amended: calling trim() invokes the engine's clearMemoryCache
and then its trim, makes no other engine call, leaves the stored
key-value content unchanged, and returns undefined. -/
theorem c6_trim_clears_cache_then_trims (st : EngineState) (args : List JSValue) :
    MmkvHostObject.trim st args =
      { result := Except.ok JSValue.undefined, state := st,
        ops := [EngineOp.clearMemoryCache, EngineOp.trim] } :=
  rfl

/-- Claim C7: delete(k) forwards to the engine's removeValueForKey for k,
returns undefined, and every key other than k keeps its stored value. -/
theorem c7_delete_forwards_and_preserves_other_keys (st : EngineState) (k : String) :
    (MmkvHostObject.deleteKey st [JSValue.string k]).result = Except.ok JSValue.undefined ∧
    (MmkvHostObject.deleteKey st [JSValue.string k]).ops = [EngineOp.removeValueForKey k] ∧
    ∀ k2, k2 ≠ k →
      findEntry (MmkvHostObject.deleteKey st [JSValue.string k]).state.entries k2 =
        findEntry st.entries k2 := by
  refine ⟨rfl, rfl, fun k2 hk => ?_⟩
  simp [MmkvHostObject.deleteKey, EngineState.engineRemove, findEntry_removeEntry, hk]

/-- Claim C7, witness: deleting key a in a concrete two-key store keeps the
value stored under key b. -/
theorem c7_delete_witness :
    (MmkvHostObject.deleteKey st1 [JSValue.string "a"]).result = Except.ok JSValue.undefined ∧
    findEntry (MmkvHostObject.deleteKey st1 [JSValue.string "a"]).state.entries "b" =
      findEntry st1.entries "b" :=
  ⟨(c7_delete_forwards_and_preserves_other_keys st1 "a").1,
   (c7_delete_forwards_and_preserves_other_keys st1 "a").2.2 "b" (by decide)⟩

/-- An engine state whose actualSize does not fit in a signed 32-bit int. -/
def stBig : EngineState := { entries := [], actualSize := 2 ^ 31 }

/-- Claim C8, counterexample: with actualSize = 2^31 the size property does
not return actualSize; the static_cast to int truncates it to -2^31. -/
theorem c8_size_truncates_large_actualSize :
    MmkvHostObject.get stBig "size" = PropertyValue.numberValue (-(2 ^ 31)) ∧
    MmkvHostObject.get stBig "size" ≠
      PropertyValue.numberValue ((stBig.actualSize : Int)) := by
  decide

/-- Claim C8, amended: the size property returns the engine's actualSize
cast through a 32-bit signed int (two's-complement truncation), which
equals actualSize exactly on values below 2^31. -/
theorem c8_size_is_actualSize_cast_to_int (st : EngineState) :
    MmkvHostObject.get st "size" = PropertyValue.numberValue (toInt32 st.actualSize) ∧
    (st.actualSize < 2 ^ 31 → toInt32 st.actualSize = (st.actualSize : Int)) := by
  refine ⟨rfl, fun h => ?_⟩
  unfold toInt32
  omega

/-- Claim C8, witness: on a concrete state with a small actualSize the size
property reports actualSize exactly. -/
theorem c8_size_witness :
    MmkvHostObject.get st1 "size" = PropertyValue.numberValue (toInt32 st1.actualSize) ∧
    toInt32 st1.actualSize = (st1.actualSize : Int) :=
  ⟨(c8_size_is_actualSize_cast_to_int st1).1,
   (c8_size_is_actualSize_cast_to_int st1).2 (by decide)⟩

/-- Claim C9: on a key with no stored value, getBoolean, getNumber,
getString and getBuffer all return undefined rather than throwing or
substituting a default. -/
theorem c9_missing_key_getters_return_undefined (st : EngineState) (k : String)
    (h : findEntry st.entries k = none) :
    (MmkvHostObject.getBoolean st [JSValue.string k]).result = Except.ok JSValue.undefined ∧
    (MmkvHostObject.getNumber st [JSValue.string k]).result = Except.ok JSValue.undefined ∧
    (MmkvHostObject.getString st [JSValue.string k]).result = Except.ok JSValue.undefined ∧
    (MmkvHostObject.getBuffer st [JSValue.string k]).result = Except.ok JSValue.undefined := by
  refine ⟨?_, ?_, ?_, ?_⟩ <;>
    simp [MmkvHostObject.getBoolean, MmkvHostObject.getNumber, MmkvHostObject.getString,
      MmkvHostObject.getBuffer, EngineState.engineGetBool, EngineState.engineGetDouble,
      EngineState.engineGetString, EngineState.engineGetBytes, h]

/-- Claim C9, witness: the four getters return undefined on a key absent
from the empty store. -/
theorem c9_missing_key_witness :
    (MmkvHostObject.getBoolean st0 [JSValue.string "missing"]).result =
      Except.ok JSValue.undefined ∧
    (MmkvHostObject.getNumber st0 [JSValue.string "missing"]).result =
      Except.ok JSValue.undefined ∧
    (MmkvHostObject.getString st0 [JSValue.string "missing"]).result =
      Except.ok JSValue.undefined ∧
    (MmkvHostObject.getBuffer st0 [JSValue.string "missing"]).result =
      Except.ok JSValue.undefined :=
  c9_missing_key_getters_return_undefined st0 "missing" rfl

/-- Claim C10: whenever set throws, the engine state is unchanged and no
engine operation was invoked. -/
theorem c10_set_error_no_engine_write (st : EngineState) (args : List JSValue)
    (h : throwsError (MmkvHostObject.set st args) = true) :
    (MmkvHostObject.set st args).state = st ∧ (MmkvHostObject.set st args).ops = [] := by
  rcases set_spec st args with ⟨_, hok⟩ | ⟨_, _, hs, ho⟩
  · exfalso
    unfold throwsError at h
    rw [hok] at h
    simp at h
  · exact ⟨hs, ho⟩

/-- Claim C10, witness: a zero-argument set call throws and leaves the
empty state untouched with no engine calls. -/
theorem c10_set_error_witness :
    (MmkvHostObject.set st0 []).state = st0 ∧ (MmkvHostObject.set st0 []).ops = [] :=
  c10_set_error_no_engine_write st0 [] (by decide)
